import Mathlib

/-!
Verification development for the cluster-summary aggregation engine
(`buildSummary` and its helpers in the kube summary module).

The engine is embedded shallowly: the thirteen concurrent retrievals of
`Promise.allSettled` are modelled as a `RetrievalEnv` record of settled
outcomes (each either fulfilled with its already-unwrapped item payload or
rejected with a structured reason), and the per-kind `kubectl` fallback
(`execJson`, which either throws or returns parsed JSON) as a record of
`Except` outcomes.  `buildSummary` is then a pure function of that
environment, mirroring the source control flow statement by statement.  In
addition to the summary it returns the list of kinds for which the fallback
executor was invoked, so that the fallback policy is itself a provable
statement.

JavaScript-specific conventions carried over faithfully:
 - `x || d` on strings treats the empty string as falsy (`strOr`);
 - `x ?? d` is a pure nullish check (`Option.getD`);
 - `Math.max(a - b, 0)` on counts is Nat truncated subtraction;
 - a `Record<string, number>` built by insertion is an insertion-ordered
   association list, and reading it back with `Object.entries` follows the
   ECMAScript own-property-key order: array-index keys (canonical all-digit
   names with value below 2^32 - 1) first, in ascending numeric order, then
   the remaining keys in insertion order (`objectEntries`);
 - `Array.prototype.sort` is a stable sort (ES2019), modelled by a stable
   insertion sort on the association list;
 - `k.split('/')` for the one-character separator is a char-level split.
-/

/-- Kubernetes context entry of a kubeconfig: name, cluster ref, user ref and
optional default namespace (`ns`, since `namespace` is a Lean keyword). -/
structure KubeContext where
  name : String
  cluster : String
  user : String
  ns : Option String := none
deriving DecidableEq

/-- Cluster entry of a kubeconfig: name and server URL. -/
structure KubeCluster where
  name : String
  server : String
deriving DecidableEq

/-- Parsed kubeconfig: contexts, clusters and the current-context pointer. -/
structure KubeConfig where
  contexts : List KubeContext
  clusters : List KubeCluster
  currentContext : String
deriving DecidableEq

/-- Server version payload (`getCode` body / `kubectl version` serverVersion). -/
structure VersionInfo where
  gitVersion : Option String := none
  platform : Option String := none
  major : Option String := none
  minor : Option String := none
deriving DecidableEq

/-- Object metadata: the fields the aggregator reads.  `ns` models
`metadata.namespace`; labels model the insertion-ordered label record. -/
structure ObjectMeta where
  name : Option String := none
  ns : Option String := none
  labels : Option (List (String × String)) := none
deriving DecidableEq

/-- Node condition entry (`status.conditions[i]`). -/
structure NodeCondition where
  type : String
  status : String
deriving DecidableEq

/-- Node info block (`status.nodeInfo`). -/
structure NodeInfo where
  kubeletVersion : Option String := none
  osImage : Option String := none
  containerRuntimeVersion : Option String := none
deriving DecidableEq

/-- Node status: conditions, node info and the capacity record. -/
structure NodeStatus where
  conditions : Option (List NodeCondition) := none
  nodeInfo : Option NodeInfo := none
  capacity : Option (List (String × String)) := none
deriving DecidableEq

/-- Raw node object as consumed by the aggregator. -/
structure KNode where
  metadata : Option ObjectMeta := none
  status : Option NodeStatus := none
deriving DecidableEq

/-- Pod status (`status.phase`). -/
structure PodStatus where
  phase : Option String := none
deriving DecidableEq

/-- Raw pod object. -/
structure Pod where
  metadata : Option ObjectMeta := none
  status : Option PodStatus := none
deriving DecidableEq

/-- Deployment status (`status.readyReplicas`, `status.replicas`). -/
structure DeploymentStatus where
  readyReplicas : Option Nat := none
  replicas : Option Nat := none
deriving DecidableEq

/-- Raw deployment object. -/
structure Deployment where
  metadata : Option ObjectMeta := none
  status : Option DeploymentStatus := none
deriving DecidableEq

/-- Service spec (`spec.type`, `spec.clusterIP`). -/
structure ServiceSpec where
  type : Option String := none
  clusterIP : Option String := none
deriving DecidableEq

/-- Raw service object. -/
structure Service where
  metadata : Option ObjectMeta := none
  spec : Option ServiceSpec := none
deriving DecidableEq

/-- Ingress rule (`spec.rules[i].host`). -/
structure IngressRule where
  host : Option String := none
deriving DecidableEq

/-- Ingress spec (`spec.rules`). -/
structure IngressSpec where
  rules : Option (List IngressRule) := none
deriving DecidableEq

/-- Raw ingress object. -/
structure Ingress where
  metadata : Option ObjectMeta := none
  spec : Option IngressSpec := none
deriving DecidableEq

/-- PVC spec (`spec.storageClassName`). -/
structure PvcSpec where
  storageClassName : Option String := none
deriving DecidableEq

/-- PVC capacity record (`status.capacity.storage`). -/
structure PvcCapacity where
  storage : Option String := none
deriving DecidableEq

/-- PVC status (`status.phase`, `status.capacity`). -/
structure PvcStatus where
  phase : Option String := none
  capacity : Option PvcCapacity := none
deriving DecidableEq

/-- Raw persistent-volume-claim object. -/
structure Pvc where
  metadata : Option ObjectMeta := none
  status : Option PvcStatus := none
  spec : Option PvcSpec := none
deriving DecidableEq

/-- Structured rejection reason of a settled promise, as read by the
critical-path error reporter: optional JSON-stringified `response.body`,
optional `message`, and the `String(err)` rendering. -/
structure RejectReason where
  responseBody : Option String := none
  message : Option String := none
  asString : String := "Error"
deriving DecidableEq

/-- Outcome of one settled promise (`Promise.allSettled` element). -/
inductive Settled (α : Type) where
  | fulfilled (value : α)
  | rejected (reason : RejectReason)
deriving DecidableEq

/-- Rejection reason of a settled result, when rejected. -/
def Settled.reason? {α : Type} : Settled α → Option RejectReason
  | Settled.fulfilled _ => none
  | Settled.rejected r => some r

/-- Mirrors `toOk`: fulfilled value of a settled result, when fulfilled. -/
def toOk {α : Type} : Settled α → Option α
  | Settled.fulfilled v => some v
  | Settled.rejected _ => none

/-- Mirrors `pickSettledError`: first rejection reason among the given settled
results (each pre-projected through `Settled.reason?`). -/
def pickSettledError (l : List (Option RejectReason)) : Option RejectReason :=
  l.findSome? id

/-- Message chain of the critical-path error body:
`(err.response.body && JSON.stringify(...)) || err.message || String(err)`.
An absent or empty `message` is falsy. -/
def rejectionBody (r : RejectReason) : String :=
  match r.responseBody with
  | some b => b
  | none =>
    match r.message with
    | some m => if m.isEmpty then r.asString else m
    | none => r.asString

/-- Resource kind tags, in the fixed fallback order of the source. -/
inductive Kind where
  | version
  | nodes
  | namespaces
  | pods
  | deployments
  | statefulsets
  | daemonsets
  | services
  | ingresses
  | storageClasses
  | persistentVolumes
  | persistentVolumeClaims
  | crds
deriving DecidableEq

/-- Environment of one `buildSummary` run: the resolved kubeconfig (`none`
when the file is missing or empty), its path, the thirteen settled primary
retrievals (payloads already unwrapped to their `items` lists / version
singleton), and the thirteen `execJson`-based fallback outcomes (`Except.error`
models a thrown `execJson`). -/
structure RetrievalEnv where
  kubeconfig : Option KubeConfig
  kubeconfigPath : String := "~/.kube/config"
  versionResp : Settled (Option VersionInfo)
  nodesResp : Settled (List KNode)
  nsResp : Settled (List ObjectMeta)
  podsResp : Settled (List Pod)
  deployResp : Settled (List Deployment)
  stsResp : Settled (List ObjectMeta)
  dsResp : Settled (List ObjectMeta)
  svcResp : Settled (List Service)
  ingResp : Settled (List Ingress)
  scResp : Settled (List ObjectMeta)
  pvResp : Settled (List ObjectMeta)
  pvcResp : Settled (List Pvc)
  crdResp : Settled (List ObjectMeta)
  fbVersion : Except String (Option VersionInfo) := Except.error "kubectl failed"
  fbNodes : Except String (List KNode) := Except.error "kubectl failed"
  fbNamespaces : Except String (List ObjectMeta) := Except.error "kubectl failed"
  fbPods : Except String (List Pod) := Except.error "kubectl failed"
  fbDeployments : Except String (List Deployment) := Except.error "kubectl failed"
  fbStatefulsets : Except String (List ObjectMeta) := Except.error "kubectl failed"
  fbDaemonsets : Except String (List ObjectMeta) := Except.error "kubectl failed"
  fbServices : Except String (List Service) := Except.error "kubectl failed"
  fbIngresses : Except String (List Ingress) := Except.error "kubectl failed"
  fbStorageClasses : Except String (List ObjectMeta) := Except.error "kubectl failed"
  fbPvs : Except String (List ObjectMeta) := Except.error "kubectl failed"
  fbPvcs : Except String (List Pvc) := Except.error "kubectl failed"
  fbCrds : Except String (List ObjectMeta) := Except.error "kubectl failed"

/-- Mirrors `loadKubeConfig`: fails when the kubeconfig file is missing or
empty, otherwise yields the parsed config. -/
def loadKubeConfig (env : RetrievalEnv) : Except String KubeConfig :=
  match env.kubeconfig with
  | none => Except.error ("kubeconfig not found or empty at " ++ env.kubeconfigPath)
  | some kc => Except.ok kc

/-- Mirrors `makeClientForContext`: loads the config, and when a context name
is supplied validates it exists and selects it as current. -/
def makeClientForContext (env : RetrievalEnv) (contextName : Option String) :
    Except String KubeConfig :=
  match loadKubeConfig env with
  | Except.error e => Except.error e
  | Except.ok kc =>
    match contextName with
    | none => Except.ok kc
    | some nm =>
      if (kc.contexts.find? (fun c => c.name == nm)).isSome then
        Except.ok { kc with currentContext := nm }
      else Except.error ("Context not found: " ++ nm)

/-- Mirrors `kc.getCurrentCluster()`: cluster referenced by the current
context. -/
def KubeConfig.getCurrentCluster (kc : KubeConfig) : Option KubeCluster :=
  match kc.contexts.find? (fun c => c.name == kc.currentContext) with
  | some c => kc.clusters.find? (fun cl => cl.name == c.cluster)
  | none => none

/-- Per-node display row of the summary. -/
structure NodeRow where
  name : String
  roles : List String
  kubeletVersion : String
  osImage : Option String := none
  containerRuntime : Option String := none
  cpu : Option String := none
  memory : Option String := none
deriving DecidableEq

/-- Top-namespaces chart entry (`{ namespace, pods }`; the namespace field is
called `ns`). -/
structure TopNsEntry where
  ns : String
  pods : Nat
deriving DecidableEq

/-- Node statistics block of the summary. -/
structure NodeStats where
  total : Nat
  ready : Nat
  notReady : Nat
  items : List NodeRow
deriving DecidableEq

/-- Namespace statistics block of the summary. -/
structure NsStats where
  total : Nat
  topByPods : List TopNsEntry
deriving DecidableEq

/-- Workload counts block of the summary. -/
structure WorkloadCounts where
  deployments : Nat
  statefulsets : Nat
  daemonsets : Nat
  pods : Nat
  services : Nat
  ingresses : Nat
deriving DecidableEq

/-- Storage counts block of the summary. -/
structure StorageCounts where
  storageClasses : Nat
  persistentVolumes : Nat
  persistentVolumeClaims : Nat
deriving DecidableEq

/-- Pod detail row. -/
structure PodRow where
  name : String
  ns : String
  phase : Option String := none
deriving DecidableEq

/-- Deployment detail row; `ready` is the formatted `"r/q"` string. -/
structure DeploymentRow where
  name : String
  ns : String
  ready : String
  replicas : Nat
deriving DecidableEq

/-- Service detail row. -/
structure ServiceRow where
  name : String
  ns : String
  type : Option String := none
  clusterIP : Option String := none
deriving DecidableEq

/-- Ingress detail row. -/
structure IngressRow where
  name : String
  ns : String
  hosts : List String
deriving DecidableEq

/-- PVC detail row. -/
structure PvcRow where
  name : String
  ns : String
  status : Option String := none
  storageClass : Option String := none
  capacity : Option String := none
deriving DecidableEq

/-- Optional detail block of the summary. -/
structure SummaryDetails where
  pods : List PodRow
  deployments : List DeploymentRow
  services : List ServiceRow
  ingresses : List IngressRow
  pvcs : List PvcRow
deriving DecidableEq

/-- The aggregation result (`ClusterSummary` of the source; `ns` models the
`namespace` field). -/
structure ClusterSummary where
  context : String
  clusterServer : Option String
  user : Option String
  ns : Option String
  version : Option VersionInfo
  nodes : NodeStats
  namespaces : NsStats
  workloads : WorkloadCounts
  storage : StorageCounts
  crds : Nat
  details : Option SummaryDetails
deriving DecidableEq

/-- JavaScript `o || d` on an optional string: absent or empty is falsy. -/
def strOr (o : Option String) (d : String) : String :=
  match o with
  | some s => if s.isEmpty then d else s
  | none => d

/-- Character-level split on `'/'`, the char-list rendering of JavaScript
`k.split('/')`. -/
def splitSlash : List Char → List (List Char)
  | [] => [[]]
  | ch :: rest =>
    let r := splitSlash rest
    if ch = '/' then [] :: r
    else
      match r with
      | [] => [[ch]]
      | g :: gs => (ch :: g) :: gs

/-- Mirrors `k.split('/')[1] || 'role'`: second slash-separated segment of a
label key, with the literal fallback `"role"` when it is absent or empty. -/
def roleOfLabelKey (k : String) : String :=
  match (splitSlash k.toList).get? 1 with
  | some seg => if seg.isEmpty then "role" else String.mk seg
  | none => "role"

/-- Label record of a node (`n.metadata?.labels || {}`). -/
def nodeLabels (n : KNode) : List (String × String) :=
  (n.metadata.bind (fun m => m.labels)).getD []

/-- Role key test: `k.startsWith('node-role.kubernetes.io')`, rendered on char
lists so it evaluates by `rfl`. -/
def isRoleLabelKey (k : String) : Bool :=
  "node-role.kubernetes.io".toList.isPrefixOf k.toList

/-- Role names of a node: keys of role labels, mapped through
`roleOfLabelKey`. -/
def nodeRoles (n : KNode) : List String :=
  ((nodeLabels n).filter (fun kv => isRoleLabelKey kv.1)).map
    (fun kv => roleOfLabelKey kv.1)

/-- Per-node display row, mirroring the `nodeItems` mapper. -/
def nodeRow (n : KNode) : NodeRow :=
  { name := strOr (n.metadata.bind (fun m => m.name)) "unknown"
    roles := nodeRoles n
    kubeletVersion :=
      strOr ((n.status.bind (fun s => s.nodeInfo)).bind (fun i => i.kubeletVersion)) "unknown"
    osImage := (n.status.bind (fun s => s.nodeInfo)).bind (fun i => i.osImage)
    containerRuntime :=
      (n.status.bind (fun s => s.nodeInfo)).bind (fun i => i.containerRuntimeVersion)
    cpu := (n.status.bind (fun s => s.capacity)).bind (fun cap => cap.lookup "cpu")
    memory := (n.status.bind (fun s => s.capacity)).bind (fun cap => cap.lookup "memory") }

/-- Ready test of the `readyCount` filter: some condition has type `"Ready"`
and status exactly `"True"`. -/
def nodeIsReady (n : KNode) : Bool :=
  ((n.status.bind (fun s => s.conditions)).getD []).any
    (fun c => c.type == "Ready" && c.status == "True")

/-- Namespace a pod is tallied under: `p.metadata?.namespace || 'default'`. -/
def podNs (p : Pod) : String :=
  strOr (p.metadata.bind (fun m => m.ns)) "default"

/-- One step of the pods-per-namespace tally
(`podsByNs[ns] = (podsByNs[ns] || 0) + 1` on the insertion-ordered record). -/
def bump (acc : List (String × Nat)) (ns : String) : List (String × Nat) :=
  if acc.any (fun kv => kv.1 == ns) then
    acc.map (fun kv => if kv.1 == ns then (kv.1, kv.2 + 1) else kv)
  else acc ++ [(ns, 1)]

/-- Pods-per-namespace tally, keys in first-seen order. -/
def tallyPods (pods : List Pod) : List (String × Nat) :=
  pods.foldl (fun acc p => bump acc (podNs p)) []

/-- Stable descending insertion by pod count: the new entry goes after every
entry with a count greater than or equal to its own. -/
def insAfterGE (p : String × Nat) : List (String × Nat) → List (String × Nat)
  | [] => [p]
  | q :: qs => if p.2 ≤ q.2 then q :: insAfterGE p qs else p :: q :: qs

/-- Stable sort by descending pod count, the rendering of the ES2019-stable
`.sort((a, b) => b[1] - a[1])`. -/
def sortByPodsDesc (xs : List (String × Nat)) : List (String × Nat) :=
  xs.foldl (fun acc p => insAfterGE p acc) []

/-- Digit test of a character (code points 48 through 57). -/
def isDigitChar (c : Char) : Bool :=
  decide (48 ≤ c.toNat) && decide (c.toNat ≤ 57)

/-- Numeric value of a most-significant-first digit string. -/
def digitsVal : List Char → Nat
  | [] => 0
  | c :: rest => digitsVal rest + (c.toNat - 48) * 10 ^ rest.length

/-- Canonical-form test for a numeric property name: nonempty and no leading
zero, except for the single-digit `"0"` itself. -/
def canonicalChars : List Char → Bool
  | [] => false
  | c :: rest => !(c == '0') || rest.isEmpty

/-- ECMAScript array-index test: the property name is a canonical all-digit
string whose value is below 2^32 - 1.  Such keys enumerate before every
other string key, in ascending numeric order. -/
def isArrayIndex (s : String) : Bool :=
  s.toList.all isDigitChar && canonicalChars s.toList &&
    decide (digitsVal s.toList < 4294967295)

/-- Numeric value of a property name (meaningful for array-index names). -/
def keyNum (s : String) : Nat := digitsVal s.toList

/-- Ascending insertion by numeric key value, used to order the array-index
keys of a record for enumeration. -/
def insByNumAsc (p : String × Nat) : List (String × Nat) → List (String × Nat)
  | [] => [p]
  | q :: qs => if keyNum q.1 ≤ keyNum p.1 then q :: insByNumAsc p qs else p :: q :: qs

/-- Ascending sort by numeric key value. -/
def sortByNumAsc (xs : List (String × Nat)) : List (String × Nat) :=
  xs.foldl (fun acc p => insByNumAsc p acc) []

/-- ECMAScript `Object.entries` enumeration of an insertion-ordered record:
array-index keys first in ascending numeric order, then the remaining keys
in insertion order (the own-property-key order JavaScript defines for
ordinary objects). -/
def objectEntries (l : List (String × Nat)) : List (String × Nat) :=
  sortByNumAsc (l.filter (fun kv => isArrayIndex kv.1)) ++
    l.filter (fun kv => !isArrayIndex kv.1)

/-- Top-10 namespaces by pod count
(`Object.entries(podsByNs).sort(...).slice(0, 10).map(...)`): the record is
enumerated in JavaScript key order, then stably sorted by descending count. -/
def topByPodsOf (pods : List Pod) : List TopNsEntry :=
  ((sortByPodsDesc (objectEntries (tallyPods pods))).take 10).map
    (fun kv => { ns := kv.1, pods := kv.2 })

/-- Pod detail row. -/
def podRow (p : Pod) : PodRow :=
  { name := strOr (p.metadata.bind (fun m => m.name)) "unknown"
    ns := strOr (p.metadata.bind (fun m => m.ns)) "default"
    phase := p.status.bind (fun s => s.phase) }

/-- Deployment detail row; the ready string interpolates
`readyReplicas ?? 0` and `replicas ?? 0`. -/
def deploymentRow (d : Deployment) : DeploymentRow :=
  { name := strOr (d.metadata.bind (fun m => m.name)) "unknown"
    ns := strOr (d.metadata.bind (fun m => m.ns)) "default"
    ready :=
      toString ((d.status.bind (fun s => s.readyReplicas)).getD 0) ++ "/" ++
        toString ((d.status.bind (fun s => s.replicas)).getD 0)
    replicas := (d.status.bind (fun s => s.replicas)).getD 0 }

/-- Service detail row. -/
def serviceRow (s : Service) : ServiceRow :=
  { name := strOr (s.metadata.bind (fun m => m.name)) "unknown"
    ns := strOr (s.metadata.bind (fun m => m.ns)) "default"
    type := s.spec.bind (fun sp => sp.type)
    clusterIP := s.spec.bind (fun sp => sp.clusterIP) }

/-- Ingress detail row; hosts are rule hosts with falsy entries dropped
(`.map(r => r.host).filter(Boolean)`). -/
def ingressRow (i : Ingress) : IngressRow :=
  { name := strOr (i.metadata.bind (fun m => m.name)) "unknown"
    ns := strOr (i.metadata.bind (fun m => m.ns)) "default"
    hosts :=
      ((i.spec.bind (fun sp => sp.rules)).getD []).filterMap
        (fun r => match r.host with
          | some h => if h.isEmpty then none else some h
          | none => none) }

/-- PVC detail row. -/
def pvcRow (c : Pvc) : PvcRow :=
  { name := strOr (c.metadata.bind (fun m => m.name)) "unknown"
    ns := strOr (c.metadata.bind (fun m => m.ns)) "default"
    status := c.status.bind (fun s => s.phase)
    storageClass := c.spec.bind (fun sp => sp.storageClassName)
    capacity := (c.status.bind (fun s => s.capacity)).bind (fun cap => cap.storage) }

/-- Mirrors the inline `.catch(async () => ({ body: { items: [] } }))` on the
ingress listing: a rejection becomes a fulfilled empty list. -/
def catchIngress : Settled (List Ingress) → Settled (List Ingress)
  | Settled.rejected _ => Settled.fulfilled []
  | s => s

/-- Primary version value after unwrap (`unwrap(toOk(versionResp))`; a
fulfilled-but-undefined value stays absent). -/
def primaryVer (env : RetrievalEnv) : Option VersionInfo :=
  (toOk env.versionResp).join

/-- Primary node list after unwrap (`...?.items ?? []`). -/
def primaryNodes (env : RetrievalEnv) : List KNode :=
  (toOk env.nodesResp).getD []

/-- Primary namespace list. -/
def primaryNamespaces (env : RetrievalEnv) : List ObjectMeta :=
  (toOk env.nsResp).getD []

/-- Primary pod list. -/
def primaryPods (env : RetrievalEnv) : List Pod :=
  (toOk env.podsResp).getD []

/-- Primary deployment list. -/
def primaryDeployments (env : RetrievalEnv) : List Deployment :=
  (toOk env.deployResp).getD []

/-- Primary statefulset list. -/
def primaryStatefulsets (env : RetrievalEnv) : List ObjectMeta :=
  (toOk env.stsResp).getD []

/-- Primary daemonset list. -/
def primaryDaemonsets (env : RetrievalEnv) : List ObjectMeta :=
  (toOk env.dsResp).getD []

/-- Primary service list. -/
def primaryServices (env : RetrievalEnv) : List Service :=
  (toOk env.svcResp).getD []

/-- Primary ingress list, behind the inline catch. -/
def primaryIngresses (env : RetrievalEnv) : List Ingress :=
  (toOk (catchIngress env.ingResp)).getD []

/-- Primary storage-class list. -/
def primaryStorageClasses (env : RetrievalEnv) : List ObjectMeta :=
  (toOk env.scResp).getD []

/-- Primary persistent-volume list. -/
def primaryPvs (env : RetrievalEnv) : List ObjectMeta :=
  (toOk env.pvResp).getD []

/-- Primary PVC list. -/
def primaryPvcs (env : RetrievalEnv) : List Pvc :=
  (toOk env.pvcResp).getD []

/-- Primary CRD list. -/
def primaryCrds (env : RetrievalEnv) : List ObjectMeta :=
  (toOk env.crdResp).getD []

/-- One `try { if (xs.length === 0) xs = execJson(...).items || [] } catch {}`
block: when the primary list is empty the fallback runs (second component
`true`); a fallback error is swallowed and the list stays as it was. -/
def runListFallback {α : Type} (primary : List α) (fb : Except String (List α)) :
    List α × Bool :=
  if primary.length = 0 then
    ((match fb with
      | Except.ok items => items
      | Except.error _ => primary), true)
  else (primary, false)

/-- Version fallback block: runs when the primary version is absent
(`if (!ver)`); its result may itself be absent (`j.serverVersion || undefined`),
and an error is swallowed. -/
def runVersionFallback (primary : Option VersionInfo)
    (fb : Except String (Option VersionInfo)) : Option VersionInfo × Bool :=
  match primary with
  | some v => (some v, false)
  | none =>
    ((match fb with
      | Except.ok v => v
      | Except.error _ => none), true)

/-- Version value after the fallback pass, with its invoked flag. -/
def resolvedVer (env : RetrievalEnv) : Option VersionInfo × Bool :=
  runVersionFallback (primaryVer env) env.fbVersion

/-- Node list after the fallback pass, with its invoked flag. -/
def resolvedNodes (env : RetrievalEnv) : List KNode × Bool :=
  runListFallback (primaryNodes env) env.fbNodes

/-- Namespace list after the fallback pass. -/
def resolvedNamespaces (env : RetrievalEnv) : List ObjectMeta × Bool :=
  runListFallback (primaryNamespaces env) env.fbNamespaces

/-- Pod list after the fallback pass. -/
def resolvedPods (env : RetrievalEnv) : List Pod × Bool :=
  runListFallback (primaryPods env) env.fbPods

/-- Deployment list after the fallback pass. -/
def resolvedDeployments (env : RetrievalEnv) : List Deployment × Bool :=
  runListFallback (primaryDeployments env) env.fbDeployments

/-- Statefulset list after the fallback pass. -/
def resolvedStatefulsets (env : RetrievalEnv) : List ObjectMeta × Bool :=
  runListFallback (primaryStatefulsets env) env.fbStatefulsets

/-- Daemonset list after the fallback pass. -/
def resolvedDaemonsets (env : RetrievalEnv) : List ObjectMeta × Bool :=
  runListFallback (primaryDaemonsets env) env.fbDaemonsets

/-- Service list after the fallback pass. -/
def resolvedServices (env : RetrievalEnv) : List Service × Bool :=
  runListFallback (primaryServices env) env.fbServices

/-- Ingress list after the fallback pass. -/
def resolvedIngresses (env : RetrievalEnv) : List Ingress × Bool :=
  runListFallback (primaryIngresses env) env.fbIngresses

/-- Storage-class list after the fallback pass. -/
def resolvedStorageClasses (env : RetrievalEnv) : List ObjectMeta × Bool :=
  runListFallback (primaryStorageClasses env) env.fbStorageClasses

/-- Persistent-volume list after the fallback pass. -/
def resolvedPvs (env : RetrievalEnv) : List ObjectMeta × Bool :=
  runListFallback (primaryPvs env) env.fbPvs

/-- PVC list after the fallback pass. -/
def resolvedPvcs (env : RetrievalEnv) : List Pvc × Bool :=
  runListFallback (primaryPvcs env) env.fbPvcs

/-- CRD list after the fallback pass. -/
def resolvedCrds (env : RetrievalEnv) : List ObjectMeta × Bool :=
  runListFallback (primaryCrds env) env.fbCrds

/-- Kinds whose fallback block ran, in the fixed source order. -/
def fallbackLog (env : RetrievalEnv) : List Kind :=
  (if (resolvedVer env).2 then [Kind.version] else []) ++
  (if (resolvedNodes env).2 then [Kind.nodes] else []) ++
  (if (resolvedNamespaces env).2 then [Kind.namespaces] else []) ++
  (if (resolvedPods env).2 then [Kind.pods] else []) ++
  (if (resolvedDeployments env).2 then [Kind.deployments] else []) ++
  (if (resolvedStatefulsets env).2 then [Kind.statefulsets] else []) ++
  (if (resolvedDaemonsets env).2 then [Kind.daemonsets] else []) ++
  (if (resolvedServices env).2 then [Kind.services] else []) ++
  (if (resolvedIngresses env).2 then [Kind.ingresses] else []) ++
  (if (resolvedStorageClasses env).2 then [Kind.storageClasses] else []) ++
  (if (resolvedPvs env).2 then [Kind.persistentVolumes] else []) ++
  (if (resolvedPvcs env).2 then [Kind.persistentVolumeClaims] else []) ++
  (if (resolvedCrds env).2 then [Kind.crds] else [])

/-- Summary assembled in the success branch of `buildSummary`: derived node
statistics, namespace tally, plain counts, and the detail block when
requested.  `notReady` renders `Math.max(length - ready, 0)` as Nat truncated
subtraction. -/
def mkSummary (env : RetrievalEnv) (kc : KubeConfig) (detail : Bool) : ClusterSummary :=
  let currentCtx := kc.currentContext
  let cur := kc.contexts.find? (fun c => c.name == currentCtx)
  let ver := (resolvedVer env).1
  let nodes := (resolvedNodes env).1
  let namespaces := (resolvedNamespaces env).1
  let pods := (resolvedPods env).1
  let deployments := (resolvedDeployments env).1
  let statefulsets := (resolvedStatefulsets env).1
  let daemonsets := (resolvedDaemonsets env).1
  let services := (resolvedServices env).1
  let ingresses := (resolvedIngresses env).1
  let storageClasses := (resolvedStorageClasses env).1
  let pvs := (resolvedPvs env).1
  let pvcs := (resolvedPvcs env).1
  let crds := (resolvedCrds env).1
  let readyCount := (nodes.filter nodeIsReady).length
  { context := currentCtx
    clusterServer := (KubeConfig.getCurrentCluster kc).map (fun cl => cl.server)
    user := cur.map (fun c => c.user)
    ns := cur.bind (fun c => c.ns)
    version := ver
    nodes :=
      { total := nodes.length
        ready := readyCount
        notReady := nodes.length - readyCount
        items := nodes.map nodeRow }
    namespaces := { total := namespaces.length, topByPods := topByPodsOf pods }
    workloads :=
      { deployments := deployments.length
        statefulsets := statefulsets.length
        daemonsets := daemonsets.length
        pods := pods.length
        services := services.length
        ingresses := ingresses.length }
    storage :=
      { storageClasses := storageClasses.length
        persistentVolumes := pvs.length
        persistentVolumeClaims := pvcs.length }
    crds := crds.length
    details :=
      if detail then
        some
          { pods := (pods.take 500).map podRow
            deployments := (deployments.take 500).map deploymentRow
            services := (services.take 500).map serviceRow
            ingresses := (ingresses.take 500).map ingressRow
            pvcs := (pvcs.take 500).map pvcRow }
      else none }

/-- The aggregation engine `buildSummary`: resolve the client set (config and
context errors propagate), check the critical path (a version or node
rejection aborts with the wrapped error, version checked first), then build
the summary with the per-kind fallback pass.  Alongside the summary it
returns the list of kinds whose fallback block ran. -/
def buildSummary (env : RetrievalEnv) (contextName : Option String) (detail : Bool) :
    Except String (ClusterSummary × List Kind) :=
  match makeClientForContext env contextName with
  | Except.error e => Except.error e
  | Except.ok kc =>
    match pickSettledError [env.versionResp.reason?, env.nodesResp.reason?] with
    | some r => Except.error ("Cluster API request failed: " ++ rejectionBody r)
    | none => Except.ok (mkSummary env kc detail, fallbackLog env)

/-! Concrete fixtures used by the witness theorems. -/

/-- Demo kubeconfig context. -/
def demoContext : KubeContext :=
  { name := "dev", cluster := "c1", user := "alice", ns := some "team" }

/-- Demo kubeconfig. -/
def demoConfig : KubeConfig :=
  { contexts := [demoContext]
    clusters := [{ name := "c1", server := "https://example:6443" }]
    currentContext := "dev" }

/-- Demo control-plane node, ready. -/
def demoNodeA : KNode :=
  { metadata := some
      { name := some "n1"
        labels := some [("node-role.kubernetes.io/control-plane", "")] }
    status := some
      { conditions := some [{ type := "Ready", status := "True" }]
        nodeInfo := some { kubeletVersion := some "v1.29.0" } } }

/-- Demo worker node, not ready. -/
def demoNodeB : KNode :=
  { metadata := some { name := some "n2" }
    status := some { conditions := some [{ type := "Ready", status := "False" }] } }

/-- Demo pod constructor. -/
def demoPod (nm ns : String) : Pod :=
  { metadata := some { name := some nm, ns := some ns }
    status := some { phase := some "Running" } }

/-- Demo deployment with 2 of 3 replicas ready. -/
def demoDeployment : Deployment :=
  { metadata := some { name := some "web", ns := some "team" }
    status := some { readyReplicas := some 2, replicas := some 3 } }

/-- Demo environment: healthy cluster, every primary retrieval fulfilled. -/
def demoEnv : RetrievalEnv :=
  { kubeconfig := some demoConfig
    versionResp := Settled.fulfilled (some { gitVersion := some "v1.29.0" })
    nodesResp := Settled.fulfilled [demoNodeA, demoNodeB]
    nsResp := Settled.fulfilled [{ name := some "team" }, { name := some "ops" }]
    podsResp := Settled.fulfilled
      [demoPod "a" "team", demoPod "b" "ops", demoPod "c" "team", demoPod "d" "ops"]
    deployResp := Settled.fulfilled [demoDeployment]
    stsResp := Settled.fulfilled []
    dsResp := Settled.fulfilled []
    svcResp := Settled.fulfilled [{ metadata := some { name := some "svc", ns := some "team" } }]
    ingResp := Settled.fulfilled []
    scResp := Settled.fulfilled []
    pvResp := Settled.fulfilled []
    pvcResp := Settled.fulfilled []
    crdResp := Settled.fulfilled [] }

/-! Inversion of a successful run. -/

/-- Successful runs come from a resolved client set and a clean critical path,
and carry exactly the assembled summary and the fallback log. -/
lemma buildSummary_ok_inv {env : RetrievalEnv} {ctx : Option String} {d : Bool}
    {s : ClusterSummary} {log : List Kind}
    (h : buildSummary env ctx d = Except.ok (s, log)) :
    ∃ kc, makeClientForContext env ctx = Except.ok kc ∧
      pickSettledError [env.versionResp.reason?, env.nodesResp.reason?] = none ∧
      s = mkSummary env kc d ∧ log = fallbackLog env := by
  unfold buildSummary at h
  cases hm : makeClientForContext env ctx with
  | error e => rw [hm] at h; exact absurd h (by simp)
  | ok kc =>
    rw [hm] at h
    cases hp : pickSettledError [env.versionResp.reason?, env.nodesResp.reason?] with
    | some r => rw [hp] at h; exact absurd h (by simp)
    | none =>
      rw [hp] at h
      simp only [Except.ok.injEq, Prod.mk.injEq] at h
      exact ⟨kc, rfl, rfl, h.1.symm, h.2.symm⟩

/-! Claim C4. -/

/-- C4: for every successful invocation of `buildSummary`,
`nodes.ready + nodes.notReady = nodes.total`, where `total` is the number of
retrieved nodes, `ready` counts retrieved nodes with a condition of type
`"Ready"` and status exactly `"True"`, and `notReady` is `total - ready`
floored at 0 (Nat truncated subtraction). -/
theorem buildSummary_nodes_ready_sum (env : RetrievalEnv) (ctx : Option String)
    (d : Bool) (s : ClusterSummary) (log : List Kind)
    (h : buildSummary env ctx d = Except.ok (s, log)) :
    s.nodes.total = (resolvedNodes env).1.length ∧
    s.nodes.ready = ((resolvedNodes env).1.filter nodeIsReady).length ∧
    s.nodes.notReady = s.nodes.total - s.nodes.ready ∧
    s.nodes.ready + s.nodes.notReady = s.nodes.total := by
  obtain ⟨kc, -, -, rfl, -⟩ := buildSummary_ok_inv h
  refine ⟨rfl, rfl, rfl, ?_⟩
  exact Nat.add_sub_cancel' (List.length_filter_le _ _)

/-- Witness for C4 at the demo environment. -/
theorem buildSummary_nodes_ready_sum_witness :
    ∃ s log, buildSummary demoEnv none false = Except.ok (s, log) ∧
      s.nodes.ready + s.nodes.notReady = s.nodes.total :=
  ⟨_, _, rfl, (buildSummary_nodes_ready_sum demoEnv none false _ _ rfl).2.2.2⟩

/-! Claim C7. -/

/-- C7: when the requested context does not exist among the resolved
kubeconfig's contexts, `buildSummary` fails with the `"Context not found"`
error carrying the requested name, propagated unchanged (in particular not
wrapped in the `"Cluster API request failed"` critical-path error), and for
every possible retrieval outcome in the environment — no retrieval result can
influence or avert this failure. -/
theorem buildSummary_context_not_found (env : RetrievalEnv) (kc : KubeConfig)
    (nm : String) (detail : Bool)
    (hkc : env.kubeconfig = some kc)
    (hmiss : kc.contexts.find? (fun c => c.name == nm) = none) :
    buildSummary env (some nm) detail = Except.error ("Context not found: " ++ nm) := by
  have hload : loadKubeConfig env = Except.ok kc := by
    unfold loadKubeConfig; rw [hkc]
  have hmk : makeClientForContext env (some nm) =
      Except.error ("Context not found: " ++ nm) := by
    unfold makeClientForContext
    rw [hload]
    simp [hmiss]
  unfold buildSummary
  rw [hmk]

/-- Witness for C7: the demo config has no context named `"missing"`. -/
theorem buildSummary_context_not_found_witness :
    buildSummary demoEnv (some "missing") true =
      Except.error ("Context not found: " ++ "missing") :=
  buildSummary_context_not_found demoEnv demoConfig "missing" true rfl rfl

/-! Claim C1. -/

/-- C1: whenever the version retrieval or the node retrieval rejects (and the
client set itself resolved), the whole aggregation aborts with the single
top-level `"Cluster API request failed"` error embedding the failing call's
structured error body, and no summary — partial or otherwise — is produced;
when both rejected, the reported reason is the version failure (version is
checked before nodes). -/
theorem buildSummary_critical_abort (env : RetrievalEnv) (ctx : Option String)
    (detail : Bool) (kc : KubeConfig) (r : RejectReason)
    (hmk : makeClientForContext env ctx = Except.ok kc)
    (hr : env.versionResp = Settled.rejected r ∨
      (env.versionResp.reason? = none ∧ env.nodesResp = Settled.rejected r)) :
    buildSummary env ctx detail =
      Except.error ("Cluster API request failed: " ++ rejectionBody r) := by
  have hp : pickSettledError [env.versionResp.reason?, env.nodesResp.reason?] = some r := by
    cases hr with
    | inl h => rw [h]; rfl
    | inr h =>
      obtain ⟨h1, h2⟩ := h
      unfold pickSettledError
      rw [h1, h2]
      rfl
  unfold buildSummary
  rw [hmk, hp]

/-- Rejection reason used by the critical-path witnesses: carries a
structured body. -/
def demoVerReason : RejectReason :=
  { responseBody := some "code 503 service unavailable", message := some "request failed" }

/-- Rejection reason of the node listing in the critical-path witness. -/
def demoNodeReason : RejectReason :=
  { responseBody := none, message := some "connect ECONNREFUSED" }

/-- Demo environment in which both critical retrievals rejected. -/
def demoCriticalEnv : RetrievalEnv :=
  { demoEnv with
    versionResp := Settled.rejected demoVerReason
    nodesResp := Settled.rejected demoNodeReason }

/-- Witness for C1: with both version and nodes rejected, the run aborts with
the version failure's body. -/
theorem buildSummary_critical_abort_witness :
    buildSummary demoCriticalEnv none false =
      Except.error ("Cluster API request failed: " ++ rejectionBody demoVerReason) :=
  buildSummary_critical_abort demoCriticalEnv none false demoConfig demoVerReason rfl
    (Or.inl rfl)

/-! Claim C2. -/

/-- C2: when the client set resolves and both critical retrievals succeed but
the ingress retrieval rejects and its fallback also fails, `buildSummary`
still succeeds, with `workloads.ingresses = 0` and — when detail is
requested — an empty `details.ingresses`; no ingress error reaches the
caller. -/
theorem buildSummary_ingress_degrades (env : RetrievalEnv) (ctx : Option String)
    (detail : Bool) (kc : KubeConfig) (r : RejectReason) (e : String)
    (hmk : makeClientForContext env ctx = Except.ok kc)
    (hv : env.versionResp.reason? = none)
    (hn : env.nodesResp.reason? = none)
    (hing : env.ingResp = Settled.rejected r)
    (hfb : env.fbIngresses = Except.error e) :
    ∃ s log, buildSummary env ctx detail = Except.ok (s, log) ∧
      s.workloads.ingresses = 0 ∧
      (detail = true → ∃ dd, s.details = some dd ∧ dd.ingresses = []) := by
  have hp : pickSettledError [env.versionResp.reason?, env.nodesResp.reason?] = none := by
    unfold pickSettledError
    rw [hv, hn]
    rfl
  have hres : resolvedIngresses env = ([], true) := by
    unfold resolvedIngresses primaryIngresses
    rw [hing, hfb]
    rfl
  unfold buildSummary
  rw [hmk, hp]
  refine ⟨_, _, rfl, ?_, ?_⟩
  · show ((resolvedIngresses env).1).length = 0
    rw [hres]
    rfl
  · intro hd
    subst hd
    refine ⟨_, rfl, ?_⟩
    show (((resolvedIngresses env).1.take 500).map ingressRow) = []
    rw [hres]
    rfl

/-- Demo environment whose ingress retrieval rejected (fallbacks all fail by
default). -/
def demoIngressFailEnv : RetrievalEnv :=
  { demoEnv with
    ingResp := Settled.rejected { message := some "the server could not find the requested resource" } }

/-- Witness for C2 at the ingress-failure environment, detail requested. -/
theorem buildSummary_ingress_degrades_witness :
    ∃ s log, buildSummary demoIngressFailEnv none true = Except.ok (s, log) ∧
      s.workloads.ingresses = 0 ∧
      (true = true → ∃ dd, s.details = some dd ∧ dd.ingresses = []) :=
  buildSummary_ingress_degrades demoIngressFailEnv none true demoConfig
    { message := some "the server could not find the requested resource" }
    "kubectl failed" rfl rfl rfl rfl rfl

/-! Claim C6. -/

/-- C6: on every successful detailed run, each of the five details arrays is
exactly the row projection of the first 500 items of its resolved collection
(retrieval order), so each has length at most 500; and on every successful
non-detailed run the details block is absent. -/
theorem buildSummary_details_capped (env : RetrievalEnv) (ctx : Option String) :
    (∀ s log, buildSummary env ctx true = Except.ok (s, log) →
      ∃ dd, s.details = some dd ∧
        dd.pods = ((resolvedPods env).1.take 500).map podRow ∧
        dd.deployments = ((resolvedDeployments env).1.take 500).map deploymentRow ∧
        dd.services = ((resolvedServices env).1.take 500).map serviceRow ∧
        dd.ingresses = ((resolvedIngresses env).1.take 500).map ingressRow ∧
        dd.pvcs = ((resolvedPvcs env).1.take 500).map pvcRow ∧
        dd.pods.length ≤ 500 ∧ dd.deployments.length ≤ 500 ∧
        dd.services.length ≤ 500 ∧ dd.ingresses.length ≤ 500 ∧
        dd.pvcs.length ≤ 500) ∧
    (∀ s log, buildSummary env ctx false = Except.ok (s, log) → s.details = none) := by
  constructor
  · intro s log h
    obtain ⟨kc, -, -, rfl, -⟩ := buildSummary_ok_inv h
    refine ⟨_, rfl, rfl, rfl, rfl, rfl, rfl, ?_, ?_, ?_, ?_, ?_⟩ <;>
      simp [List.length_take]
  · intro s log h
    obtain ⟨kc, -, -, rfl, -⟩ := buildSummary_ok_inv h
    rfl

/-- Demo environment with 600 pods retrieved. -/
def demo600Env : RetrievalEnv :=
  { demoEnv with podsResp := Settled.fulfilled (List.replicate 600 (demoPod "p" "team")) }

set_option maxRecDepth 4000 in
/-- Witness for C6: 600 retrieved pods yield exactly 500 pod detail rows. -/
theorem buildSummary_details_capped_witness :
    ∃ s log dd, buildSummary demo600Env none true = Except.ok (s, log) ∧
      s.details = some dd ∧ dd.pods.length = 500 := by
  obtain ⟨dd, h1, h2, -⟩ :=
    (buildSummary_details_capped demo600Env none).1 _ _ rfl
  refine ⟨_, _, dd, rfl, h1, ?_⟩
  rw [h2]
  have h3 : (resolvedPods demo600Env).1 = List.replicate 600 (demoPod "p" "team") := rfl
  rw [h3]
  rw [List.length_map, List.length_take, List.length_replicate]
  decide

/-! Claim C8. -/

/-- C8: on every successful run the per-node rows are the `nodeRow`
projections of the retrieved nodes, whose roles are computed from the label
keys with the `node-role.kubernetes.io` name as a proper prefix by taking the
segment after the slash with the literal fallback `"role"`: a node labeled
`node-role.kubernetes.io/control-plane` yields roles `["control-plane"]`, and
a node with a role-key lacking the slash segment yields roles `["role"]`
(for any label value in both cases). -/
theorem buildSummary_node_roles (env : RetrievalEnv) (ctx : Option String) (d : Bool) :
    (∀ s log, buildSummary env ctx d = Except.ok (s, log) →
      s.nodes.items = (resolvedNodes env).1.map nodeRow) ∧
    (∀ (n : KNode) (meta : ObjectMeta) (v : String), n.metadata = some meta →
      meta.labels = some [("node-role.kubernetes.io/control-plane", v)] →
      (nodeRow n).roles = ["control-plane"]) ∧
    (∀ (n : KNode) (meta : ObjectMeta) (v : String), n.metadata = some meta →
      meta.labels = some [("node-role.kubernetes.io", v)] →
      (nodeRow n).roles = ["role"]) := by
  refine ⟨?_, ?_, ?_⟩
  · intro s log h
    obtain ⟨kc, -, -, rfl, -⟩ := buildSummary_ok_inv h
    rfl
  · intro n meta v h1 h2
    show nodeRoles n = ["control-plane"]
    unfold nodeRoles nodeLabels
    rw [h1]
    show ((meta.labels.getD []).filter _).map _ = _
    rw [h2]
    rfl
  · intro n meta v h1 h2
    show nodeRoles n = ["role"]
    unfold nodeRoles nodeLabels
    rw [h1]
    show ((meta.labels.getD []).filter _).map _ = _
    rw [h2]
    rfl

/-- Demo node whose only role label key has no slash segment. -/
def demoNodeC : KNode :=
  { metadata := some { name := some "n3", labels := some [("node-role.kubernetes.io", "")] } }

/-- Witness for C8: the demo control-plane node's row and the slashless role
key, both through the theorem. -/
theorem buildSummary_node_roles_witness :
    (∃ s log, buildSummary demoEnv none false = Except.ok (s, log) ∧
      s.nodes.items.map (fun it => it.roles) = [["control-plane"], []]) ∧
    (nodeRow demoNodeC).roles = ["role"] := by
  constructor
  · have h := (buildSummary_node_roles demoEnv none false).1 _ _ rfl
    refine ⟨_, _, rfl, ?_⟩
    rw [h]
    rfl
  · exact (buildSummary_node_roles demoEnv none false).2.2 demoNodeC _ "" rfl rfl

/-! Claim C9. -/

/-- C9: on every successful detailed run the deployment rows are the
projections of the first 500 resolved deployments, and each row's ready
string joins `readyReplicas` and `replicas` with a slash, defaulting each to
0 when missing: present values `r` and `q` format as `"r/q"`, and a
deployment with both fields missing formats as `"0/0"`. -/
theorem buildSummary_deployment_ready_format (env : RetrievalEnv) (ctx : Option String) :
    (∀ s log, buildSummary env ctx true = Except.ok (s, log) →
      ∃ dd, s.details = some dd ∧
        dd.deployments = ((resolvedDeployments env).1.take 500).map deploymentRow) ∧
    (∀ (d : Deployment) (st : DeploymentStatus) (r q : Nat), d.status = some st →
      st.readyReplicas = some r → st.replicas = some q →
      (deploymentRow d).ready = toString r ++ "/" ++ toString q) ∧
    (∀ (d : Deployment) (st : DeploymentStatus), d.status = some st →
      st.readyReplicas = none → st.replicas = none →
      (deploymentRow d).ready = "0/0") ∧
    (∀ d : Deployment, d.status = none → (deploymentRow d).ready = "0/0") := by
  refine ⟨?_, ?_, ?_, ?_⟩
  · intro s log h
    obtain ⟨kc, -, -, rfl, -⟩ := buildSummary_ok_inv h
    exact ⟨_, rfl, rfl⟩
  · intro d st r q h1 h2 h3
    show toString ((d.status.bind (fun s => s.readyReplicas)).getD 0) ++ "/" ++
        toString ((d.status.bind (fun s => s.replicas)).getD 0) = _
    rw [h1]
    show toString ((st.readyReplicas).getD 0) ++ "/" ++ toString ((st.replicas).getD 0) = _
    rw [h2, h3]
    rfl
  · intro d st h1 h2 h3
    show toString ((d.status.bind (fun s => s.readyReplicas)).getD 0) ++ "/" ++
        toString ((d.status.bind (fun s => s.replicas)).getD 0) = _
    rw [h1]
    show toString ((st.readyReplicas).getD 0) ++ "/" ++ toString ((st.replicas).getD 0) = _
    rw [h2, h3]
    rfl
  · intro d h1
    show toString ((d.status.bind (fun s => s.readyReplicas)).getD 0) ++ "/" ++
        toString ((d.status.bind (fun s => s.replicas)).getD 0) = _
    rw [h1]
    rfl

/-- Witness for C9: the demo deployment (2 of 3 ready) formats as `"2/3"`,
through the successful detailed demo run. -/
theorem buildSummary_deployment_ready_format_witness :
    ∃ s log dd, buildSummary demoEnv none true = Except.ok (s, log) ∧
      s.details = some dd ∧ dd.deployments = [deploymentRow demoDeployment] ∧
      (deploymentRow demoDeployment).ready = "2/3" := by
  obtain ⟨dd, h1, h2⟩ := (buildSummary_deployment_ready_format demoEnv none).1 _ _ rfl
  refine ⟨_, _, dd, rfl, h1, ?_, ?_⟩
  · rw [h2]
    rfl
  · exact (buildSummary_deployment_ready_format demoEnv none).2.1 demoDeployment _ 2 3
      rfl rfl rfl

/-! Claim C3. -/

/-- Error test on a fallback outcome (the `catch` trigger of a fallback
block). -/
def isErr {α : Type} : Except String α → Bool
  | Except.error _ => true
  | Except.ok _ => false

/-- Emptiness of a kind's primary result as the fallback trigger sees it:
empty unwrapped list for collections (whether fulfilled empty or rejected and
swallowed), absent singleton for version. -/
def primaryEmptyOf (env : RetrievalEnv) : Kind → Bool
  | Kind.version => (primaryVer env).isNone
  | Kind.nodes => (primaryNodes env).length == 0
  | Kind.namespaces => (primaryNamespaces env).length == 0
  | Kind.pods => (primaryPods env).length == 0
  | Kind.deployments => (primaryDeployments env).length == 0
  | Kind.statefulsets => (primaryStatefulsets env).length == 0
  | Kind.daemonsets => (primaryDaemonsets env).length == 0
  | Kind.services => (primaryServices env).length == 0
  | Kind.ingresses => (primaryIngresses env).length == 0
  | Kind.storageClasses => (primaryStorageClasses env).length == 0
  | Kind.persistentVolumes => (primaryPvs env).length == 0
  | Kind.persistentVolumeClaims => (primaryPvcs env).length == 0
  | Kind.crds => (primaryCrds env).length == 0

/-- Failure of a kind's fallback executor invocation. -/
def fallbackFailedOf (env : RetrievalEnv) : Kind → Bool
  | Kind.version => isErr env.fbVersion
  | Kind.nodes => isErr env.fbNodes
  | Kind.namespaces => isErr env.fbNamespaces
  | Kind.pods => isErr env.fbPods
  | Kind.deployments => isErr env.fbDeployments
  | Kind.statefulsets => isErr env.fbStatefulsets
  | Kind.daemonsets => isErr env.fbDaemonsets
  | Kind.services => isErr env.fbServices
  | Kind.ingresses => isErr env.fbIngresses
  | Kind.storageClasses => isErr env.fbStorageClasses
  | Kind.persistentVolumes => isErr env.fbPvs
  | Kind.persistentVolumeClaims => isErr env.fbPvcs
  | Kind.crds => isErr env.fbCrds

/-- A kind's section of the summary is empty: zero count for collections,
absent version for the singleton. -/
def kindEmptyIn (s : ClusterSummary) : Kind → Prop
  | Kind.version => s.version = none
  | Kind.nodes => s.nodes.total = 0
  | Kind.namespaces => s.namespaces.total = 0
  | Kind.pods => s.workloads.pods = 0
  | Kind.deployments => s.workloads.deployments = 0
  | Kind.statefulsets => s.workloads.statefulsets = 0
  | Kind.daemonsets => s.workloads.daemonsets = 0
  | Kind.services => s.workloads.services = 0
  | Kind.ingresses => s.workloads.ingresses = 0
  | Kind.storageClasses => s.storage.storageClasses = 0
  | Kind.persistentVolumes => s.storage.persistentVolumes = 0
  | Kind.persistentVolumeClaims => s.storage.persistentVolumeClaims = 0
  | Kind.crds => s.crds = 0

/-- Invoked flag of a list-kind fallback block: exactly the emptiness of the
primary list. -/
lemma runListFallback_snd {α : Type} (p : List α) (fb : Except String (List α)) :
    (runListFallback p fb).2 = (p.length == 0) := by
  unfold runListFallback
  by_cases h : p.length = 0 <;> simp [h]

/-- Invoked flag of the version fallback block: exactly the absence of the
primary version. -/
lemma runVersionFallback_snd (p : Option VersionInfo)
    (fb : Except String (Option VersionInfo)) :
    (runVersionFallback p fb).2 = p.isNone := by
  cases p <;> rfl

/-- A failing list fallback leaves the kind's list empty. -/
lemma runListFallback_len_zero {α : Type} (p : List α) (fb : Except String (List α))
    (hp : p.length = 0) (hf : isErr fb = true) :
    (runListFallback p fb).1.length = 0 := by
  cases fb with
  | ok v => exact absurd hf (by simp [isErr])
  | error e => simp [runListFallback, hp]

/-- A failing version fallback leaves the version absent. -/
lemma runVersionFallback_none (fb : Except String (Option VersionInfo))
    (hf : isErr fb = true) :
    (runVersionFallback none fb).1 = none := by
  cases fb with
  | ok v => exact absurd hf (by simp [isErr])
  | error e => rfl

/-- Membership in a flag-guarded singleton. -/
lemma mem_flag_singleton (b : Bool) (x y : Kind) :
    (x ∈ if b then [y] else []) ↔ (b = true ∧ x = y) := by
  cases b <;> simp

/-- C3: on every successful run, a kind's fallback block ran if and only if
its primary result was empty — an empty unwrapped list (whether genuinely
empty or a swallowed rejection) for collections, an absent singleton for
version; and when the primary result was empty and the fallback failed, the
failure is swallowed and the kind's section of the summary stays empty.
No fallback error is surfaced: the run is `Except.ok` by hypothesis. -/
theorem buildSummary_fallback_policy (env : RetrievalEnv) (ctx : Option String)
    (detail : Bool) (s : ClusterSummary) (log : List Kind)
    (h : buildSummary env ctx detail = Except.ok (s, log)) (k : Kind) :
    (k ∈ log ↔ primaryEmptyOf env k = true) ∧
    (primaryEmptyOf env k = true → fallbackFailedOf env k = true → kindEmptyIn s k) := by
  obtain ⟨kc, -, -, rfl, rfl⟩ := buildSummary_ok_inv h
  constructor
  · cases k <;>
      simp [fallbackLog, List.mem_append, mem_flag_singleton, primaryEmptyOf,
        resolvedVer, resolvedNodes, resolvedNamespaces, resolvedPods,
        resolvedDeployments, resolvedStatefulsets, resolvedDaemonsets,
        resolvedServices, resolvedIngresses, resolvedStorageClasses, resolvedPvs,
        resolvedPvcs, resolvedCrds, runListFallback_snd, runVersionFallback_snd]
  · intro h1 h2
    cases k with
    | version =>
      have hv : primaryVer env = none := by
        simp only [primaryEmptyOf] at h1
        exact Option.isNone_iff_eq_none.1 h1
      show (resolvedVer env).1 = none
      unfold resolvedVer
      rw [hv]
      exact runVersionFallback_none _ h2
    | nodes =>
      show (resolvedNodes env).1.length = 0
      exact runListFallback_len_zero _ _ (by simpa [primaryEmptyOf] using h1) h2
    | namespaces =>
      show (resolvedNamespaces env).1.length = 0
      exact runListFallback_len_zero _ _ (by simpa [primaryEmptyOf] using h1) h2
    | pods =>
      show (resolvedPods env).1.length = 0
      exact runListFallback_len_zero _ _ (by simpa [primaryEmptyOf] using h1) h2
    | deployments =>
      show (resolvedDeployments env).1.length = 0
      exact runListFallback_len_zero _ _ (by simpa [primaryEmptyOf] using h1) h2
    | statefulsets =>
      show (resolvedStatefulsets env).1.length = 0
      exact runListFallback_len_zero _ _ (by simpa [primaryEmptyOf] using h1) h2
    | daemonsets =>
      show (resolvedDaemonsets env).1.length = 0
      exact runListFallback_len_zero _ _ (by simpa [primaryEmptyOf] using h1) h2
    | services =>
      show (resolvedServices env).1.length = 0
      exact runListFallback_len_zero _ _ (by simpa [primaryEmptyOf] using h1) h2
    | ingresses =>
      show (resolvedIngresses env).1.length = 0
      exact runListFallback_len_zero _ _ (by simpa [primaryEmptyOf] using h1) h2
    | storageClasses =>
      show (resolvedStorageClasses env).1.length = 0
      exact runListFallback_len_zero _ _ (by simpa [primaryEmptyOf] using h1) h2
    | persistentVolumes =>
      show (resolvedPvs env).1.length = 0
      exact runListFallback_len_zero _ _ (by simpa [primaryEmptyOf] using h1) h2
    | persistentVolumeClaims =>
      show (resolvedPvcs env).1.length = 0
      exact runListFallback_len_zero _ _ (by simpa [primaryEmptyOf] using h1) h2
    | crds =>
      show (resolvedCrds env).1.length = 0
      exact runListFallback_len_zero _ _ (by simpa [primaryEmptyOf] using h1) h2

/-- Witness for C3 at the demo environment: the statefulset primary list is
empty (its fallback runs and fails, leaving the count zero) while the pod
primary list is non-empty (no fallback). -/
theorem buildSummary_fallback_policy_witness :
    ∃ s log, buildSummary demoEnv none false = Except.ok (s, log) ∧
      (Kind.statefulsets ∈ log ↔ primaryEmptyOf demoEnv Kind.statefulsets = true) ∧
      (Kind.pods ∈ log ↔ primaryEmptyOf demoEnv Kind.pods = true) ∧
      primaryEmptyOf demoEnv Kind.statefulsets = true ∧
      ¬ Kind.pods ∈ ((if true then [Kind.statefulsets] else []) : List Kind) ∧
      (primaryEmptyOf demoEnv Kind.statefulsets = true →
        fallbackFailedOf demoEnv Kind.statefulsets = true →
        kindEmptyIn s Kind.statefulsets) := by
  refine ⟨_, _, rfl, ?_, ?_, rfl, by decide, ?_⟩
  · exact (buildSummary_fallback_policy demoEnv none false _ _ rfl Kind.statefulsets).1
  · exact (buildSummary_fallback_policy demoEnv none false _ _ rfl Kind.pods).1
  · exact (buildSummary_fallback_policy demoEnv none false _ _ rfl Kind.statefulsets).2

/-! Machinery for the top-by-pods claims: the stable descending insertion
sort and the tally invariants. -/

